import Mathlib

/-!
Verification of the PowerMem memory-service orchestration layer
(src/src/server/services/memory_service.py) against its specification.

The Python code is shallowly embedded: Python dicts used as string-keyed
records become association lists (insertion order preserved, keys assumed
unique as for Python dicts), Python `None` becomes `Option.none`, a key
that may be absent or null is modelled as `Option (Option _)` where the
outer layer is key presence and the inner layer nullness, and Python
float arithmetic is modelled exactly over the rationals.  The external
`Memory` store is an opaque collaborator and is modelled as a record of
total oracle functions; store-raised exceptions are not modelled (every
claim below concerns the orchestration logic around a responding store).
Logging and metrics calls are effect-free and dropped.
-/

/-- Association-list model of a Python string-keyed dict.  Python dict keys
are unique; all dict values produced below keep that invariant, and every
lemma that needs only lookup semantics holds for arbitrary lists. -/
abbrev Dict (V : Type) := List (String × V)

/-- First-match lookup, the semantics of Python `d.get(k)` on our dict model. -/
def dlookup {V : Type} (k : String) : Dict V → Option V
  | [] => none
  | (a, v) :: rest => if a = k then some v else dlookup k rest

/-- Truthiness of the Python expression `existing.get("metadata")` where the
field is modelled as `Option (Dict V)` (none = key absent or value null):
falsy iff absent, null, or the empty dict. -/
def dictTruthy {V : Type} (d : Option (Dict V)) : Bool :=
  match d with
  | none => false
  | some l => !l.isEmpty

/-- Python dict merge `{**old, **new}`: keys of `old` keep their position but
take the value from `new` when `new` also has the key; keys only in `new`
are appended in order. -/
def pyMerge {V : Type} (old new : Dict V) : Dict V :=
  old.map (fun p => (p.1, (dlookup p.1 new).getD p.2)) ++
    new.filter (fun p => (dlookup p.1 old).isNone)

/-- Canonical record shape handled by the service: the fields of the loosely
typed memory dicts that memory_service.py actually reads.  Outer `Option`
is key presence; for `content` the inner `Option` is nullness (the code
distinguishes absent from null there via `existing.get("content", "")`).
A field the store did not set defaults to `none` (absent). -/
structure MemRec (V : Type) where
  id_field : Option Int := none
  memory_id_field : Option Int := none
  content_field : Option (Option String) := none
  memory_field : Option String := none
  data_field : Option String := none
  metadata_field : Option (Dict V) := none
  importance_field : Option ℚ := none
  access_count_field : Option Int := none
  type_field : Option String := none
  memory_type_field : Option String := none
  created_at_field : Option String := none
  updated_at_field : Option String := none
deriving DecidableEq

/-- Source lines 310-315 and 684-689 (update_memory and batch_update_memories
share these lines verbatim):

  final_metadata = metadata
  if metadata is not None and existing.get("metadata"):
      final_metadata = {**existing.get("metadata", {}), **metadata}
  elif existing.get("metadata"):
      final_metadata = existing.get("metadata")
-/
def updateFinalMetadata {V : Type} (metadata : Option (Dict V))
    (existingMetadata : Option (Dict V)) : Option (Dict V) :=
  if metadata.isSome && dictTruthy existingMetadata then
    some (pyMerge (existingMetadata.getD []) (metadata.getD []))
  else if dictTruthy existingMetadata then
    existingMetadata
  else
    metadata

/-- Python `existing.get("content", "")` on the two-level content field:
absent key yields the default, a present key yields its (possibly null)
value. -/
def pyGetContent (c : Option (Option String)) : Option String :=
  match c with
  | none => some ""
  | some v => v

/-- Source lines 308 and 692: final_content = content if content is not None
else existing.get("content", ""). -/
def updateFinalContent {V : Type} (content : Option String) (existing : MemRec V) :
    Option String :=
  match content with
  | some c => some c
  | none => pyGetContent existing.content_field

-- Lookup lemmas for the Python dict merge.

theorem dlookup_append {V : Type} (k : String) (l₁ l₂ : Dict V) :
    dlookup k (l₁ ++ l₂) =
      match dlookup k l₁ with
      | some v => some v
      | none => dlookup k l₂ := by
  induction l₁ with
  | nil => simp [dlookup]
  | cons p rest ih =>
    obtain ⟨a, v⟩ := p
    by_cases h : a = k <;> simp [dlookup, h, ih]

theorem dlookup_merged_left {V : Type} (k : String) (old new : Dict V) :
    dlookup k (old.map (fun p => (p.1, (dlookup p.1 new).getD p.2))) =
      (dlookup k old).map (fun v => (dlookup k new).getD v) := by
  induction old with
  | nil => simp [dlookup]
  | cons p rest ih =>
    obtain ⟨a, v⟩ := p
    by_cases h : a = k
    · subst h
      simp [dlookup]
    · simp [dlookup, h, ih]

theorem dlookup_merged_right {V : Type} (k : String) (old new : Dict V)
    (h : dlookup k old = none) :
    dlookup k (new.filter (fun p => (dlookup p.1 old).isNone)) = dlookup k new := by
  induction new with
  | nil => simp
  | cons p rest ih =>
    obtain ⟨a, v⟩ := p
    by_cases hk : a = k
    · subst hk
      simp [List.filter, dlookup, h, ih]
    · cases hold : dlookup a old with
      | none => simp [List.filter, hold, dlookup, hk, ih]
      | some w => simp [List.filter, hold, dlookup, hk, ih]

/-- Lookup over the Python merge: the new dict wins on every key it holds,
the old dict supplies the rest. -/
theorem dlookup_pyMerge {V : Type} (k : String) (old new : Dict V) :
    dlookup k (pyMerge old new) =
      match dlookup k new with
      | some v => some v
      | none => dlookup k old := by
  unfold pyMerge
  rw [dlookup_append]
  cases hold : dlookup k old with
  | none =>
    rw [dlookup_merged_left, hold]
    simp [dlookup_merged_right k old new hold]
    cases dlookup k new <;> simp
  | some v =>
    rw [dlookup_merged_left, hold]
    cases hnew : dlookup k new <;> simp

/-!  Error model.  The ErrorCode enum lives in src/server/models/errors.py,
which is not among the provided source files; the constructors below are the
codes memory_service.py raises at its call sites, plus INVALID_ARGUMENT,
modelled from the spec: section 7 lists an InvalidArgument error kind
distinct from NotFound/CreateFailed/UpdateFailed/DeleteFailed/InternalError. -/
inductive ErrorCode where
  | MEMORY_NOT_FOUND
  | MEMORY_CREATE_FAILED
  | MEMORY_UPDATE_FAILED
  | MEMORY_DELETE_FAILED
  | INTERNAL_ERROR
  | INVALID_ARGUMENT
deriving DecidableEq

/-- APIError as raised by the service: code, message, HTTP status. -/
structure ApiErr where
  code : ErrorCode
  msg : String
  status : Nat
deriving DecidableEq

/-- Internal exception kinds a service method body can raise before its
`except` clauses classify them: APIError, or a bare Python ValueError. -/
inductive Exc where
  | api (e : ApiErr)
  | valueError (msg : String)

/-- Snapshot shape produced by _calculate_stats_from_memories.  The two
defaultdicts (by_type, growth_by_date) are modelled by their resulting count
functions; top_accessed keeps its list shape.  Calendar days are modelled as
day numbers (timestamp div 86400). -/
structure TopEntry where
  entry_id : Option Int
  content : String
  access_count : Int

structure AgeDist where
  lt_1_day : Nat
  days_1_to_7 : Nat
  days_7_to_30 : Nat
  gt_30_days : Nat

structure Stats where
  total_memories : Nat
  by_type : String → Nat
  avg_importance : ℚ
  top_accessed : List TopEntry
  growth_trend : Nat → Nat
  age_distribution : AgeDist

/-- Report returned by analyze_memory_quality.  quality_criteria keeps the
dict-as-association-list shape so the empty dict of the zero-record branch
stays distinguishable from an all-zero populated one. -/
structure QualityReport where
  total_memories : Nat
  low_quality_count : Nat
  low_quality_ratio : ℚ
  quality_criteria : List (String × Nat)
deriving DecidableEq

/-- Oracle model of the external Memory store (plus the dateutil parser),
scoped to the identity filters the service passes through.  Timestamps are
modelled as natural numbers on one timeline with the sentinel datetime.min
at 0; parse s = some t means dateutil parses s to time t, none means it
raises. -/
structure Store (V : Type) where
  get : Int → Option (MemRec V)
  payloadData : Int → Option String
  update : Int → Option String → Option (Dict V) → MemRec V
  delete : Int → Bool
  getAll : List (MemRec V)
  parse : String → Option Nat
  nativeStats : Stats

/-- Truthiness of an optional string, as in `if created_at:` or the `or`
chains: falsy iff absent/None or empty. -/
def strFalsy (s : Option String) : Bool :=
  match s with
  | none => true
  | some str => str = ""

/-- Python `a or b` on two optional strings (b returned whenever a is falsy). -/
def pyOrStr (a b : Option String) : Option String :=
  if strFalsy a then b else a

/-- Python `a or b` where b is a plain string default, as in `... or "unknown"`
or `... or ""`. -/
def pyOrStrD (a : Option String) (b : String) : String :=
  match a with
  | none => b
  | some s => if s = "" then b else s

/-- Python `a or b` on optional integers: 0 and None are both falsy, so a
present 0 falls through to b (which is returned as-is, even if itself falsy). -/
def pyOrInt (a b : Option Int) : Option Int :=
  match a with
  | none => b
  | some i => if i = 0 then b else some i

/-- Flatten the two-level content field for contexts that use plain
`m.get("content")` (absent and null both become none). -/
def joinOpt (c : Option (Option String)) : Option String :=
  match c with
  | none => none
  | some v => v

/-- Source lines 373-382, _parse_datetime: absent or empty date strings and
parser failures all collapse to the sentinel datetime.min, modelled as 0. -/
def parse_datetime (parse : String → Option Nat) (date_str : Option String) : Nat :=
  match date_str with
  | none => 0
  | some s => if s = "" then 0 else (parse s).getD 0

/-- Source lines 160-218, get_memory: store miss raises MEMORY_NOT_FOUND
(404); when the fetched content is falsy the service tries the raw storage
payload under the "data" key and substitutes a non-empty value, and a failed
or empty secondary lookup is logged, never raised.  The payloadData oracle
returns the final data string of that secondary lookup, none standing for
any of its failure paths. -/
def get_memory {V : Type} (store : Store V) (memory_id : Int) :
    Except ApiErr (MemRec V) :=
  match store.get memory_id with
  | none =>
    .error ⟨.MEMORY_NOT_FOUND, "Memory " ++ toString memory_id ++ " not found", 404⟩
  | some memory =>
    if strFalsy (joinOpt memory.content_field) then
      match store.payloadData memory_id with
      | some data_content =>
        if data_content = "" then .ok memory
        else .ok { memory with content_field := some (some data_content) }
      | none => .ok memory
    else
      .ok memory

/-- Source lines 275-341, update_memory.  The body runs under try; a raised
APIError is re-raised unchanged and any other exception (the missing-argument
ValueError included) is wrapped as MEMORY_UPDATE_FAILED with status 500.
The id-backfill on the returned record (lines 326-328) touches no claim and
the store record is returned as the store produced it. -/
def update_memory {V : Type} (store : Store V) (memory_id : Int)
    (content : Option String) (metadata : Option (Dict V)) :
    Except ApiErr (MemRec V) :=
  let body : Except Exc (MemRec V) :=
    match get_memory store memory_id with
    | .error e => .error (.api e)
    | .ok existing =>
      if content.isNone && metadata.isNone then
        .error (.valueError "At least one of content or metadata must be provided")
      else
        let final_content := updateFinalContent content existing
        let final_metadata := updateFinalMetadata metadata existing.metadata_field
        .ok (store.update memory_id final_content final_metadata)
  match body with
  | .ok r => .ok r
  | .error (.api e) => .error e
  | .error (.valueError m) =>
    .error ⟨.MEMORY_UPDATE_FAILED, "Failed to update memory: " ++ m, 500⟩

/-- Source lines 472-520, delete_memory: existence check first (NotFound
propagates), then the store delete; a false store result raises
MEMORY_DELETE_FAILED. -/
def delete_memory {V : Type} (store : Store V) (memory_id : Int) :
    Except ApiErr Bool :=
  match get_memory store memory_id with
  | .error e => .error e
  | .ok _ =>
    if store.delete memory_id then .ok true
    else
      .error ⟨.MEMORY_DELETE_FAILED,
        "Failed to delete memory " ++ toString memory_id, 500⟩

/-- An entry of the raw results list the store returns from get_all: either a
well-formed record dict or something that is not a dict (whose Python value
is irrelevant to the service beyond failing isinstance(item, dict)). -/
inductive RawEntry (V : Type) where
  | dict (m : MemRec V)
  | nondict

/-- Source lines 257-263: the filtering loop of list_memories, which appends
exactly the dict-shaped items in order and logs the rest. -/
def list_memories_filter {V : Type} : List (RawEntry V) → List (MemRec V)
  | [] => []
  | .dict m :: rest => m :: list_memories_filter rest
  | .nondict :: rest => list_memories_filter rest

/-- Source lines 220-273, list_memories: a store-level failure of get_all is
wrapped as INTERNAL_ERROR; a successful response has its results list
filtered to the dict-shaped entries. -/
def list_memories {V : Type} (getAllResult : Except String (List (RawEntry V))) :
    Except ApiErr (List (MemRec V)) :=
  match getAllResult with
  | .error e =>
    .error ⟨.INTERNAL_ERROR, "Failed to list memories: " ++ e, 500⟩
  | .ok memories_list => .ok (list_memories_filter memories_list)

/-- One entry of the "results" list inside a store add response, carrying the
keys create_memory and batch_create_memories read from it. -/
structure AddItem (V : Type) where
  id_key : Option Int := none
  memory_key : Option (Option String) := none
  user_id_key : Option (Option String) := none
  agent_id_key : Option (Option String) := none
  run_id_key : Option (Option String) := none
  metadata_key : Option (Dict V) := none
  created_at_key : Option (Option String) := none
  updated_at_key : Option (Option String) := none

/-- The dict returned by Memory.add, with the three keys the service inspects
("results", "memory_id", "id"); outer Option is key presence. -/
structure AddResp (V : Type) where
  results_key : Option (List (AddItem V)) := none
  memory_id_key : Option (Option Int) := none
  id_key : Option (Option Int) := none

/-- Source lines 114-120, the get_field closure of create_memory: use the
result-item value when the key is present with a non-null value, otherwise
the caller-supplied parameter. -/
def getField {α : Type} (field : Option (Option α)) (param : Option α) : Option α :=
  match field with
  | some (some v) => some v
  | _ => param

/-- getField where the caller parameter is a required plain string (the
content argument of create_memory). -/
def getFieldStr (field : Option (Option String)) (param : String) : String :=
  match field with
  | some (some v) => v
  | _ => param

/-- The fallback record create_memory builds from a raw result item when the
canonical re-fetch fails (source lines 107-138). -/
structure NormMem (V : Type) where
  norm_id : Int
  norm_memory_id : Int
  content : String
  user_id : Option String
  agent_id : Option String
  run_id : Option String
  metadata : Dict V
  created_at : Option String
  updated_at : Option String

/-- A memory returned by create_memory: either the canonical record
re-fetched through get_memory, or the fallback normalization of the raw
result item. -/
inductive CreatedMem (V : Type) where
  | fetched (m : MemRec V)
  | fallback (m : NormMem V)

/-- Source lines 107-138: build the fallback record from a raw result item.
result_metadata falls back to the caller metadata (or empty dict) when the
item value is absent or null; the isinstance(dict) guard is immediate in the
typed model. -/
def normalizeFromItem {V : Type} (item : AddItem V) (memory_id : Int)
    (content : String) (user_id agent_id run_id : Option String)
    (metadata : Option (Dict V)) : NormMem V :=
  let result_metadata :=
    match item.metadata_key with
    | some d => d
    | none =>
      match metadata with
      | some d => d
      | none => []
  { norm_id := memory_id
    norm_memory_id := memory_id
    content := getFieldStr item.memory_key content
    user_id := getField item.user_id_key user_id
    agent_id := getField item.agent_id_key agent_id
    run_id := getField item.run_id_key run_id
    metadata := result_metadata
    created_at := joinOpt item.created_at_key
    updated_at := joinOpt item.updated_at_key }

/-- Source lines 91-138, the normalization loop of create_memory: items
without an "id" are skipped; the canonical re-fetch is tried first and any
exception from it falls back to the raw item (a successful get_memory yields
a non-empty record dict, so the `if full_memory:` guard is taken on
success). -/
def create_memory_loop {V : Type} (store : Store V) (content : String)
    (user_id agent_id run_id : Option String) (metadata : Option (Dict V)) :
    List (AddItem V) → List (CreatedMem V)
  | [] => []
  | item :: rest =>
    match item.id_key with
    | none => create_memory_loop store content user_id agent_id run_id metadata rest
    | some memory_id =>
      match get_memory store memory_id with
      | .ok full_memory =>
        .fetched full_memory ::
          create_memory_loop store content user_id agent_id run_id metadata rest
      | .error _ =>
        .fallback (normalizeFromItem item memory_id content user_id agent_id run_id metadata) ::
          create_memory_loop store content user_id agent_id run_id metadata rest

/-- Source lines 32-158, create_memory.  addResult is the store response to
the single Memory.add call (error = the store raised, with its message).
An empty or absent results list returns the empty list without error; any
exception wraps as MEMORY_CREATE_FAILED with status 500. -/
def create_memory {V : Type} (store : Store V)
    (addResult : Except String (AddResp V)) (content : String)
    (user_id agent_id run_id : Option String) (metadata : Option (Dict V)) :
    Except ApiErr (List (CreatedMem V)) :=
  match addResult with
  | .error e =>
    .error ⟨.MEMORY_CREATE_FAILED, "Failed to create memory: " ++ e, 500⟩
  | .ok result =>
    let all_results := result.results_key.getD []
    if all_results.isEmpty then .ok []
    else .ok (create_memory_loop store content user_id agent_id run_id metadata all_results)

/-- Result dict of bulk_delete_memories (source lines 549-555). -/
structure BulkDeleteResult where
  deleted : List Int
  failed : List (Int × String)
  total : Nat
  deleted_count : Nat
  failed_count : Nat

/-- Source lines 539-547, the bulk delete loop: each id is deleted through
delete_memory, an APIError for one id is captured per-item (delete_memory
raises nothing else). -/
def bulk_delete_loop {V : Type} (store : Store V) :
    List Int → List Int × List (Int × String)
  | [] => ([], [])
  | memory_id :: rest =>
    let r := bulk_delete_loop store rest
    match delete_memory store memory_id with
    | .ok _ => (memory_id :: r.1, r.2)
    | .error e => (r.1, (memory_id, e.msg) :: r.2)

/-- Source lines 522-555, bulk_delete_memories. -/
def bulk_delete_memories {V : Type} (store : Store V) (memory_ids : List Int) :
    BulkDeleteResult :=
  let r := bulk_delete_loop store memory_ids
  { deleted := r.1
    failed := r.2
    total := memory_ids.length
    deleted_count := r.1.length
    failed_count := r.2.length }

/-- One input item of batch_create_memories.  content keeps the two-level
model (the failure record distinguishes an absent key, displayed "N/A", from
a null value); filters, scope and memory_type only flow to the store oracle
and carry no service logic. -/
structure CreateItem (V : Type) where
  content_key : Option (Option String) := none
  metadata_key : Option (Dict V) := none

/-- Success entry appended by batch_create_memories (source lines 623-627). -/
structure CreatedEntry where
  index : Nat
  memory_id : Int
  content : String
deriving DecidableEq

/-- Failure entry appended by batch_create_memories (source lines 631-635);
content is item.get("content", "N/A"), which can still be null. -/
structure FailedCreate where
  index : Nat
  content : Option String
  error : String
deriving DecidableEq

/-- Source lines 610-618: memory_id extraction precedence.  A present,
non-empty "results" list wins and contributes its first item id even when
that id is null; otherwise the top-level "memory_id", then "id". -/
def extractMemoryId {V : Type} (result : AddResp V) : Option Int :=
  match result.results_key with
  | some (item :: _) => item.id_key
  | _ =>
    match result.memory_id_key with
    | some v => v
    | none =>
      match result.id_key with
      | some v => v
      | none => none

/-- Python `memory_item.get("content", "N/A")` for the failure record. -/
def failContentDisplay (item_content : Option (Option String)) : Option String :=
  match item_content with
  | none => some "N/A"
  | some v => v

/-- Source lines 586-635: outcome of one batch-create item.  Falsy content
(absent, null or empty) is a per-item ValueError; a store failure and a
failed id extraction are likewise captured per-item; every error lands in
the failure list with this item index. -/
def batch_create_one {V : Type} (addAt : Nat → Except String (AddResp V))
    (idx : Nat) (item : CreateItem V) : Sum CreatedEntry FailedCreate :=
  let content := joinOpt item.content_key
  if strFalsy content then
    .inr ⟨idx, failContentDisplay item.content_key, "Memory content is required"⟩
  else
    match addAt idx with
    | .error e => .inr ⟨idx, failContentDisplay item.content_key, e⟩
    | .ok result =>
      match extractMemoryId result with
      | none =>
        .inr ⟨idx, failContentDisplay item.content_key,
          "Failed to extract memory_id from result"⟩
      | some memory_id => .inl ⟨idx, memory_id, content.getD ""⟩

/-- The enumerated loop of batch_create_memories, threading the running item
index. -/
def batch_create_loop {V : Type} (addAt : Nat → Except String (AddResp V)) :
    List (CreateItem V) → Nat → List CreatedEntry × List FailedCreate
  | [], _ => ([], [])
  | item :: rest, idx =>
    let r := batch_create_loop addAt rest (idx + 1)
    match batch_create_one addAt idx item with
    | .inl entry => (entry :: r.1, r.2)
    | .inr entry => (r.1, entry :: r.2)

/-- Result dict of batch_create_memories (source lines 637-643). -/
structure BatchCreateResult where
  created : List CreatedEntry
  failed : List FailedCreate
  total : Nat
  created_count : Nat
  failed_count : Nat

/-- Source lines 557-643, batch_create_memories.  addAt idx is the store
response to the add call issued for the item at index idx. -/
def batch_create_memories {V : Type} (addAt : Nat → Except String (AddResp V))
    (memories : List (CreateItem V)) : BatchCreateResult :=
  let r := batch_create_loop addAt memories 0
  { created := r.1
    failed := r.2
    total := memories.length
    created_count := r.1.length
    failed_count := r.2.length }

/-- One input item of batch_update_memories; every field is read through
.get, so absent and null coincide. -/
structure UpdateItem (V : Type) where
  memory_id_key : Option Int := none
  content_key : Option String := none
  metadata_key : Option (Dict V) := none

/-- Success entry appended by batch_update_memories (source lines 702-705). -/
structure UpdatedEntry where
  index : Nat
  memory_id : Int
deriving DecidableEq

/-- Failure entry appended by batch_update_memories (source lines 709-720);
both except branches record the same shape, an APIError contributing its
message and a ValueError its text. -/
structure FailedUpdate where
  index : Nat
  memory_id : Option Int
  error : String
deriving DecidableEq

/-- Source lines 668-720: outcome of one batch-update item.  Missing
memory_id and missing content-and-metadata are per-item ValueErrors; the
existence fetch happens after that validation here (unlike single
update_memory) and its APIError is captured per-item; then the same merge
lines as update_memory run and the store update is issued. -/
def batch_update_one {V : Type} (store : Store V) (idx : Nat)
    (update_item : UpdateItem V) : Sum UpdatedEntry FailedUpdate :=
  match update_item.memory_id_key with
  | none => .inr ⟨idx, none, "memory_id is required for each update"⟩
  | some memory_id =>
    if update_item.content_key.isNone && update_item.metadata_key.isNone then
      .inr ⟨idx, some memory_id, "At least one of content or metadata must be provided"⟩
    else
      match get_memory store memory_id with
      | .error e => .inr ⟨idx, some memory_id, e.msg⟩
      | .ok existing =>
        let final_metadata := updateFinalMetadata update_item.metadata_key existing.metadata_field
        let final_content := updateFinalContent update_item.content_key existing
        let _result := store.update memory_id final_content final_metadata
        .inl ⟨idx, memory_id⟩

/-- The enumerated loop of batch_update_memories. -/
def batch_update_loop {V : Type} (store : Store V) :
    List (UpdateItem V) → Nat → List UpdatedEntry × List FailedUpdate
  | [], _ => ([], [])
  | item :: rest, idx =>
    let r := batch_update_loop store rest (idx + 1)
    match batch_update_one store idx item with
    | .inl entry => (entry :: r.1, r.2)
    | .inr entry => (r.1, entry :: r.2)

/-- Result dict of batch_update_memories (source lines 722-728). -/
structure BatchUpdateResult where
  updated : List UpdatedEntry
  failed : List FailedUpdate
  total : Nat
  updated_count : Nat
  failed_count : Nat

/-- Source lines 645-728, batch_update_memories. -/
def batch_update_memories {V : Type} (store : Store V)
    (updates : List (UpdateItem V)) : BatchUpdateResult :=
  let r := batch_update_loop store updates 0
  { updated := r.1
    failed := r.2
    total := updates.length
    updated_count := r.1.length
    failed_count := r.2.length }

/-- Source line 421: mem_type = m.get("type") or m.get("memory_type") or
"unknown". -/
def pyType {V : Type} (m : MemRec V) : String :=
  pyOrStrD (pyOrStr m.type_field m.memory_type_field) "unknown"

/-- Source line 425: importance = m.get("importance") or 0.5 — the Python
`or` makes an absent, null or zero importance all contribute 0.5. -/
def py_importance {V : Type} (m : MemRec V) : ℚ :=
  match m.importance_field with
  | none => 1/2
  | some x => if x = 0 then 1/2 else x

/-- Truthiness of `if created_at:` (source line 439). -/
def createdTruthy {V : Type} (m : MemRec V) : Bool :=
  !strFalsy m.created_at_field

/-- Whole-day age of a record relative to now, Python
(now - date_obj).days with its floor semantics. -/
def ageDays {V : Type} (parse : String → Option Nat) (now : Nat) (m : MemRec V) : Int :=
  Int.fdiv ((now : Int) - (parse_datetime parse m.created_at_field : Int)) 86400

/-- Source lines 428-435: the optional top-accessed entry of one record. -/
def accessEntry {V : Type} (m : MemRec V) : Option TopEntry :=
  let access_count := m.access_count_field.getD 0
  if access_count > 0 then
    some ⟨pyOrInt m.id_field m.memory_id_field,
      (pyOrStrD (pyOrStr m.memory_field (joinOpt m.content_field)) "").take 100,
      access_count⟩
  else none

/-- Stable descending insertion by access_count: an element is placed after
every earlier element with access_count at least its own, which is exactly
the stable Python list.sort(key=access_count, reverse=True). -/
def insertDesc (x : TopEntry) : List TopEntry → List TopEntry
  | [] => [x]
  | y :: ys =>
    if y.access_count ≥ x.access_count then y :: insertDesc x ys else x :: y :: ys

def sortDescStable (l : List TopEntry) : List TopEntry :=
  l.foldl (fun acc x => insertDesc x acc) []

/-- The all-zero snapshot of the zero-record branch (source lines 390-403). -/
def zeroStats : Stats :=
  { total_memories := 0
    by_type := fun _ => 0
    avg_importance := 0
    top_accessed := []
    growth_trend := fun _ => 0
    age_distribution := ⟨0, 0, 0, 0⟩ }

/-- Source lines 384-466, _calculate_stats_from_memories.  The loop over the
records is expressed denotationally: the two defaultdicts by their final
count functions, the importance accumulator as a fold, top_accessed as the
filtered list in scan order followed by the stable descending sort and the
cap of 10.  now is the evaluation-time clock the source reads inside the
function; calendar days are timestamp div 86400 with the sentinel
datetime.min at day 0. -/
def calculate_stats_from_memories {V : Type} (now : Nat)
    (parse : String → Option Nat) (memories : List (MemRec V)) : Stats :=
  if memories.length = 0 then zeroStats
  else
    { total_memories := memories.length
      by_type := fun ty => memories.countP (fun m => pyType m == ty)
      avg_importance :=
        if memories.length > 0 then
          (memories.foldl (fun acc m => acc + py_importance m) 0) / memories.length
        else 0
      top_accessed := (sortDescStable (memories.filterMap accessEntry)).take 10
      growth_trend := fun day =>
        memories.countP (fun m =>
          createdTruthy m &&
            (parse_datetime parse m.created_at_field / 86400 == day))
      age_distribution :=
        { lt_1_day := memories.countP (fun m =>
            createdTruthy m && decide (ageDays parse now m < 1))
          days_1_to_7 := memories.countP (fun m =>
            createdTruthy m && !decide (ageDays parse now m < 1) &&
              decide (ageDays parse now m < 7))
          days_7_to_30 := memories.countP (fun m =>
            createdTruthy m && !decide (ageDays parse now m < 7) &&
              decide (ageDays parse now m < 30))
          gt_30_days := memories.countP (fun m =>
            createdTruthy m && !decide (ageDays parse now m < 30)) } }

/-- Source lines 343-371, get_statistics: without a cutoff the native store
aggregate is returned as-is; with one (any non-null datetime is truthy) the
service filters a bounded scan by parse(created_at) >= cutoff and recomputes
locally. -/
def get_statistics {V : Type} (store : Store V) (now : Nat)
    (cutoff_date : Option Nat) : Stats :=
  let stats := store.nativeStats
  match cutoff_date with
  | none => stats
  | some c =>
    let all_memories := store.getAll
    let filtered_memories :=
      all_memories.filter (fun m => c ≤ parse_datetime store.parse m.created_at_field)
    calculate_stats_from_memories now store.parse filtered_memories

/-- Source lines 763-767 (and identically lines 362-366): retain the records
whose parsed created_at is at or after the cutoff; no cutoff keeps the list
unchanged. -/
def cutoffFilter {V : Type} (parse : String → Option Nat) (cutoff_date : Option Nat)
    (memories : List (MemRec V)) : List (MemRec V) :=
  match cutoff_date with
  | some c => memories.filter (fun m => c ≤ parse_datetime parse m.created_at_field)
  | none => memories

/-- Source line 793: metadata falsy, or an empty dict (the isinstance branch
is subsumed on the typed model). -/
def missingMetadataB {V : Type} (m : MemRec V) : Bool :=
  (m.metadata_field.getD []).isEmpty

/-- Python str.strip(): drop leading and trailing whitespace.  Defined
structurally over the character list so that it evaluates inside the
kernel (String.trim in core is defined by well-founded recursion). -/
def pyStrip (s : String) : String :=
  ⟨((s.data.dropWhile Char.isWhitespace).reverse.dropWhile Char.isWhitespace).reverse⟩

/-- Source lines 798-801: resolved content (memory or content or data or "")
stripped, length below 5. -/
def emptyContentB {V : Type} (m : MemRec V) : Bool :=
  (pyStrip (pyOrStrD (pyOrStr m.memory_field (pyOrStr (joinOpt m.content_field) m.data_field)) "")).length < 5

/-- Source lines 806-807: importance present and below 0.3. -/
def lowImportanceB {V : Type} (m : MemRec V) : Bool :=
  match m.importance_field with
  | none => false
  | some x => x < 3/10

/-- A record triggering at least one of the three defect criteria. -/
def defectiveB {V : Type} (m : MemRec V) : Bool :=
  missingMetadataB m || emptyContentB m || lowImportanceB m

/-- Source line 789: the deduplication key, memory.get("id") or
memory.get("memory_id"). -/
def dedupKey {V : Type} (m : MemRec V) : Option Int :=
  pyOrInt m.id_field m.memory_id_field

/-- Mutable state of the quality loop: the three criterion counters and the
deduplicating set of record ids. -/
structure QState where
  missing_metadata : Nat
  empty_content : Nat
  low_importance : Nat
  seen : Finset (Option Int)

/-- Source lines 788-809: one iteration of the quality loop; each triggered
criterion bumps its own counter and adds the id to the set. -/
def qstep {V : Type} (s : QState) (memory : MemRec V) : QState :=
  let memory_id := dedupKey memory
  let s1 :=
    if missingMetadataB memory then
      { s with missing_metadata := s.missing_metadata + 1, seen := insert memory_id s.seen }
    else s
  let s2 :=
    if emptyContentB memory then
      { s1 with empty_content := s1.empty_content + 1, seen := insert memory_id s1.seen }
    else s1
  let s3 :=
    if lowImportanceB memory then
      { s2 with low_importance := s2.low_importance + 1, seen := insert memory_id s2.seen }
    else s2
  s3

def qualityScan {V : Type} (memories : List (MemRec V)) : QState :=
  memories.foldl qstep ⟨0, 0, 0, ∅⟩

/-- Round-half-even on an exact rational, the semantics of Python round at a
tie; Python rounds floats, which this models exactly up to float
representation noise. -/
def rhe (q : ℚ) : ℤ :=
  if q - ⌊q⌋ = 1/2 then (if 2 ∣ ⌊q⌋ then ⌊q⌋ else ⌊q⌋ + 1) else round q

/-- Python round(x, 4). -/
def round4 (q : ℚ) : ℚ := (rhe (q * 10000) : ℚ) / 10000

/-- Source lines 730-829, analyze_memory_quality (async in source, its body
synchronous).  The bounded scan list and the cutoff filter mirror
get_statistics; the zero-record branch returns the all-zero report with an
empty criteria dict; otherwise the loop state yields the counters, the set
cardinality the deduplicated count, and the ratio is rounded to 4 decimals. -/
def analyze_memory_quality {V : Type} (getAll : List (MemRec V))
    (parse : String → Option Nat) (cutoff_date : Option Nat) : QualityReport :=
  let memories_list : List (MemRec V) := cutoffFilter parse cutoff_date getAll
  let total_mems : ℕ := memories_list.length
  if total_mems = 0 then
    { total_memories := 0
      low_quality_count := 0
      low_quality_ratio := 0
      quality_criteria := [] }
  else
    let s := qualityScan memories_list
    let low_count := s.seen.card
    let ratio := (low_count : ℚ) / (total_mems : ℚ)
    { total_memories := total_mems
      low_quality_count := low_count
      low_quality_ratio := round4 ratio
      quality_criteria :=
        [("missing_metadata", s.missing_metadata),
         ("empty_content", s.empty_content),
         ("low_importance", s.low_importance)] }

/-- A store hit makes get_memory succeed, whatever the content
reconciliation does. -/
theorem get_memory_ok_of_some {V : Type} (store : Store V) (memory_id : Int)
    (r : MemRec V) (h : store.get memory_id = some r) :
    ∃ m, get_memory store memory_id = .ok m := by
  unfold get_memory
  rw [h]
  by_cases hf : strFalsy (joinOpt r.content_field)
  · simp only [hf, if_true]
    cases store.payloadData memory_id with
    | none => exact ⟨_, rfl⟩
    | some d =>
      by_cases hd : d = "" <;> simp only [hd, if_true, if_false] <;> exact ⟨_, rfl⟩
  · simp only [hf, if_false]
    exact ⟨_, rfl⟩

/-- C1: for every update_memory or batch_update_memories item, when both the
existing metadata and the supplied metadata are present and non-empty the
written metadata is the shallow Python merge of existing then new, with the
new value winning on every conflicting key and the existing dict supplying
the rest; when only one of the two is present that one is written; and the
written content is the supplied content when non-null, else the existing
record content (updateFinalMetadata and updateFinalContent are exactly the
final_metadata and final_content both functions pass to Memory.update). -/
theorem c1_update_merge_semantics {V : Type} (existing : MemRec V)
    (content : Option String) (metadata : Option (Dict V)) :
    (∀ em nm, existing.metadata_field = some em → em ≠ [] →
      metadata = some nm → nm ≠ [] →
        updateFinalMetadata metadata existing.metadata_field = some (pyMerge em nm) ∧
        (∀ k v, dlookup k nm = some v → dlookup k (pyMerge em nm) = some v) ∧
        (∀ k, dlookup k nm = none → dlookup k (pyMerge em nm) = dlookup k em)) ∧
    (∀ nm, dictTruthy existing.metadata_field = false → metadata = some nm →
      updateFinalMetadata metadata existing.metadata_field = some nm) ∧
    (metadata = none → dictTruthy existing.metadata_field = true →
      updateFinalMetadata metadata existing.metadata_field = existing.metadata_field) ∧
    (∀ c, content = some c → updateFinalContent content existing = some c) ∧
    (content = none → updateFinalContent content existing = pyGetContent existing.content_field) := by
  refine ⟨?_, ?_, ?_, ?_, ?_⟩
  · intro em nm hem hemne hnm hnmne
    subst hnm
    rw [hem]
    have htr : dictTruthy (some em) = true := by
      simp [dictTruthy, List.isEmpty_iff, hemne]
    refine ⟨?_, ?_, ?_⟩
    · simp [updateFinalMetadata, htr]
    · intro k v hk
      rw [dlookup_pyMerge, hk]
    · intro k hk
      rw [dlookup_pyMerge, hk]
  · intro nm htr hnm
    subst hnm
    simp [updateFinalMetadata, htr]
  · intro hmd htr
    subst hmd
    simp [updateFinalMetadata, htr]
  · intro c hc
    subst hc
    rfl
  · intro hc
    subst hc
    rfl

/-- C1 witness: the spec examples, existing {"a":1} with new {"a":9} merging
to a dict whose "a" is 9, and a null content falling back to the existing
record content. -/
theorem c1_update_merge_semantics_witness :
    updateFinalMetadata (some [("a", (9 : ℤ))]) (some [("a", 1)]) =
      some (pyMerge [("a", 1)] [("a", 9)]) ∧
    dlookup "a" (pyMerge [("a", (1 : ℤ))] [("a", 9)]) = some 9 ∧
    updateFinalContent none ({ metadata_field := some [("a", (1 : ℤ))] } : MemRec ℤ) =
      some "" := by
  have h := c1_update_merge_semantics (V := ℤ)
    { metadata_field := some [("a", 1)] } none (some [("a", 9)])
  have h1 := h.1 [("a", 1)] [("a", 9)] rfl (by simp) rfl (by simp)
  refine ⟨h1.1, h1.2.1 "a" 9 (by simp [dlookup]), h.2.2.2.2 rfl⟩

/-- Dummy record store used by concrete witnesses: every id resolves to the
all-default record. -/
def storeWithRec : Store ℤ :=
  { get := fun _ => some {}
    payloadData := fun _ => none
    update := fun _ _ _ => {}
    delete := fun _ => true
    getAll := []
    parse := fun _ => none
    nativeStats := zeroStats }

/-- Dummy empty store used by concrete witnesses: every id misses. -/
def emptyStore : Store ℤ :=
  { get := fun _ => none
    payloadData := fun _ => none
    update := fun _ _ _ => {}
    delete := fun _ => true
    getAll := []
    parse := fun _ => none
    nativeStats := zeroStats }

/-- C3 counterexample: with the identifier present and both content and
metadata null, update_memory raises MEMORY_UPDATE_FAILED (the ValueError is
wrapped by the generic except clause), which is not the InvalidArgument
kind the claim names. -/
theorem c3_invalid_argument_counterexample :
    update_memory storeWithRec 7 none none =
      .error ⟨.MEMORY_UPDATE_FAILED,
        "Failed to update memory: At least one of content or metadata must be provided",
        500⟩ ∧
    ErrorCode.MEMORY_UPDATE_FAILED ≠ ErrorCode.INVALID_ARGUMENT := by
  exact ⟨rfl, by decide⟩

/-- C3 as amended: an update_memory call with both content and metadata null
on an existing identifier fails with MEMORY_UPDATE_FAILED and status 500 —
the missing-argument ValueError is raised inside the try block and wrapped
by the generic except clause as UpdateFailed, not surfaced as an
InvalidArgument error. -/
theorem c3_missing_args_update_failed {V : Type} (store : Store V)
    (memory_id : Int) (r : MemRec V) (h : store.get memory_id = some r) :
    update_memory store memory_id none none =
      .error ⟨.MEMORY_UPDATE_FAILED,
        "Failed to update memory: At least one of content or metadata must be provided",
        500⟩ := by
  obtain ⟨m, hm⟩ := get_memory_ok_of_some store memory_id r h
  simp [update_memory, hm]

/-- C3 witness: the amended theorem evaluated on a concrete store. -/
theorem c3_missing_args_update_failed_witness :
    update_memory storeWithRec 9 none none =
      .error ⟨.MEMORY_UPDATE_FAILED,
        "Failed to update memory: At least one of content or metadata must be provided",
        500⟩ :=
  c3_missing_args_update_failed storeWithRec 9 {} rfl

/-- C9: update_memory performs the existence fetch before validating its
arguments — an identifier absent from the store fails MEMORY_NOT_FOUND
(404) even when both content and metadata are null. -/
theorem c9_notfound_precedes_validation {V : Type} (store : Store V)
    (memory_id : Int) (h : store.get memory_id = none) :
    update_memory store memory_id none none =
      .error ⟨.MEMORY_NOT_FOUND,
        "Memory " ++ toString memory_id ++ " not found", 404⟩ := by
  simp [update_memory, get_memory, h]

/-- C9 witness: a concrete miss with both arguments null yields NotFound. -/
theorem c9_notfound_precedes_validation_witness :
    update_memory emptyStore 5 none none =
      .error ⟨.MEMORY_NOT_FOUND, "Memory " ++ toString (5 : Int) ++ " not found", 404⟩ :=
  c9_notfound_precedes_validation emptyStore 5 rfl

/-- C7: when the store add call returns an empty (or absent) results list,
create_memory returns the empty list and raises no error. -/
theorem c7_create_empty_results {V : Type} (store : Store V) (resp : AddResp V)
    (content : String) (user_id agent_id run_id : Option String)
    (metadata : Option (Dict V))
    (h : resp.results_key = none ∨ resp.results_key = some []) :
    create_memory store (.ok resp) content user_id agent_id run_id metadata =
      .ok [] := by
  rcases h with h | h <;> simp [create_memory, h]

/-- C7 witness: a concrete store response without results. -/
theorem c7_create_empty_results_witness :
    create_memory emptyStore (.ok {}) "some content" none none none none = .ok [] :=
  c7_create_empty_results emptyStore {} "some content" none none none none (Or.inl rfl)

/-- C8: list_memories returns exactly the dict-shaped entries of the store
results list, in order, dropping every non-dict entry without failing the
call; in particular a response of dict, non-dict, dict yields exactly the
two dict entries. -/
theorem c8_list_drops_malformed {V : Type} (l : List (RawEntry V))
    (m1 m2 : MemRec V) :
    list_memories (Except.ok l) =
      Except.ok (l.filterMap (fun e =>
        match e with
        | .dict m => some m
        | .nondict => none)) ∧
    list_memories (Except.ok [RawEntry.dict m1, RawEntry.nondict, RawEntry.dict m2]) =
      Except.ok [m1, m2] := by
  constructor
  · simp only [list_memories]
    congr 1
    induction l with
    | nil => rfl
    | cons e rest ih => cases e <;> simp [list_memories_filter, ih]
  · rfl

/-- Success test on a captured per-item outcome. -/
def exceptOk {ε α : Type} : Except ε α → Bool
  | .ok _ => true
  | .error _ => false

/-- Message extraction from a captured per-item APIError. -/
def exceptErrMsg {α : Type} : Except ApiErr α → String
  | .ok _ => ""
  | .error e => e.msg

theorem length_filter_add_not {α : Type} (p : α → Bool) (l : List α) :
    (l.filter p).length + (l.filter (fun a => !p a)).length = l.length := by
  induction l with
  | nil => rfl
  | cons a rest ih =>
    cases h : p a <;> simp [List.filter, h, ← ih] <;> omega

/-- The bulk delete loop partitions the input ids positionally: the deleted
list is the in-order sublist of ids whose delete succeeded and the failed
list the in-order sublist of the rest, each with its captured message. -/
theorem bulk_delete_loop_eq {V : Type} (store : Store V) (memory_ids : List Int) :
    (bulk_delete_loop store memory_ids).1 =
      memory_ids.filter (fun i => exceptOk (delete_memory store i)) ∧
    (bulk_delete_loop store memory_ids).2 =
      (memory_ids.filter (fun i => !exceptOk (delete_memory store i))).map
        (fun i => (i, exceptErrMsg (delete_memory store i))) := by
  induction memory_ids with
  | nil => exact ⟨rfl, rfl⟩
  | cons memory_id rest ih =>
    cases h : delete_memory store memory_id with
    | ok b =>
      simp [bulk_delete_loop, h, List.filter, exceptOk, ih.1, ih.2]
    | error e =>
      simp [bulk_delete_loop, h, List.filter, exceptOk, exceptErrMsg, ih.1, ih.2]

/-- Index projection of a per-item batch-create outcome. -/
def createOutcomeIndex : Sum CreatedEntry FailedCreate → Nat
  | .inl e => e.index
  | .inr e => e.index

/-- Index projection of a per-item batch-update outcome. -/
def updateOutcomeIndex : Sum UpdatedEntry FailedUpdate → Nat
  | .inl e => e.index
  | .inr e => e.index

/-- Every branch of a batch-create item outcome records the item index. -/
theorem batch_create_one_index {V : Type} (addAt : Nat → Except String (AddResp V))
    (idx : Nat) (item : CreateItem V) :
    createOutcomeIndex (batch_create_one addAt idx item) = idx := by
  cases h1 : strFalsy (joinOpt item.content_key) with
  | true => simp [batch_create_one, h1, createOutcomeIndex]
  | false =>
    cases h2 : addAt idx with
    | error s => simp [batch_create_one, h1, h2, createOutcomeIndex]
    | ok result =>
      cases h3 : extractMemoryId result with
      | none => simp [batch_create_one, h1, h2, h3, createOutcomeIndex]
      | some mid => simp [batch_create_one, h1, h2, h3, createOutcomeIndex]

/-- Every branch of a batch-update item outcome records the item index. -/
theorem batch_update_one_index {V : Type} (store : Store V)
    (idx : Nat) (item : UpdateItem V) :
    updateOutcomeIndex (batch_update_one store idx item) = idx := by
  cases h1 : item.memory_id_key with
  | none => simp [batch_update_one, h1, updateOutcomeIndex]
  | some memory_id =>
    cases h2 : item.content_key.isNone && item.metadata_key.isNone with
    | true => simp [batch_update_one, h1, h2, updateOutcomeIndex]
    | false =>
      cases h3 : get_memory store memory_id with
      | error e => simp [batch_update_one, h1, h2, h3, updateOutcomeIndex]
      | ok existing => simp [batch_update_one, h1, h2, h3, updateOutcomeIndex]

/-- The enumerated batch create loop distributes the index range of its items
across the two result lists, each index exactly once. -/
theorem batch_create_loop_perm {V : Type} (addAt : Nat → Except String (AddResp V))
    (items : List (CreateItem V)) (idx : Nat) :
    List.Perm
      ((batch_create_loop addAt items idx).1.map CreatedEntry.index ++
        (batch_create_loop addAt items idx).2.map FailedCreate.index)
      (List.range' idx items.length) := by
  induction items generalizing idx with
  | nil => simp [batch_create_loop]
  | cons item rest ih =>
    have hidx := batch_create_one_index addAt idx item
    show List.Perm _ (idx :: List.range' (idx + 1) rest.length)
    cases h : batch_create_one addAt idx item with
    | inl e =>
      rw [h] at hidx
      simp only [createOutcomeIndex] at hidx
      simp only [batch_create_loop, h, List.map_cons, List.cons_append, hidx]
      exact (ih (idx + 1)).cons idx
    | inr e =>
      rw [h] at hidx
      simp only [createOutcomeIndex] at hidx
      simp only [batch_create_loop, h, List.map_cons, hidx]
      exact List.perm_middle.trans ((ih (idx + 1)).cons idx)

/-- The enumerated batch update loop distributes the index range of its items
across the two result lists, each index exactly once. -/
theorem batch_update_loop_perm {V : Type} (store : Store V)
    (updates : List (UpdateItem V)) (idx : Nat) :
    List.Perm
      ((batch_update_loop store updates idx).1.map UpdatedEntry.index ++
        (batch_update_loop store updates idx).2.map FailedUpdate.index)
      (List.range' idx updates.length) := by
  induction updates generalizing idx with
  | nil => simp [batch_update_loop]
  | cons item rest ih =>
    have hidx := batch_update_one_index store idx item
    show List.Perm _ (idx :: List.range' (idx + 1) rest.length)
    cases h : batch_update_one store idx item with
    | inl e =>
      rw [h] at hidx
      simp only [updateOutcomeIndex] at hidx
      simp only [batch_update_loop, h, List.map_cons, List.cons_append, hidx]
      exact (ih (idx + 1)).cons idx
    | inr e =>
      rw [h] at hidx
      simp only [updateOutcomeIndex] at hidx
      simp only [batch_update_loop, h, List.map_cons, hidx]
      exact List.perm_middle.trans ((ih (idx + 1)).cons idx)

/-- C2: for each of bulk_delete_memories, batch_create_memories and
batch_update_memories over N input items, success count plus failure count
equals N, and the items partition across the two lists: for the bulk delete
the two lists are exactly the in-order success and failure sublists of the
input ids, and for the two enumerated batch operations the index fields of
the two lists together are a permutation of the index range 0..N-1, so every
index appears in exactly one of the two lists. -/
theorem c2_batch_counts_partition {V : Type} (store : Store V)
    (memory_ids : List Int) (addAt : Nat → Except String (AddResp V))
    (items : List (CreateItem V)) (updates : List (UpdateItem V)) :
    ((bulk_delete_memories store memory_ids).deleted_count +
        (bulk_delete_memories store memory_ids).failed_count = memory_ids.length ∧
      (bulk_delete_memories store memory_ids).total = memory_ids.length ∧
      (bulk_delete_memories store memory_ids).deleted =
        memory_ids.filter (fun i => exceptOk (delete_memory store i)) ∧
      (bulk_delete_memories store memory_ids).failed =
        (memory_ids.filter (fun i => !exceptOk (delete_memory store i))).map
          (fun i => (i, exceptErrMsg (delete_memory store i)))) ∧
    ((batch_create_memories addAt items).created_count +
        (batch_create_memories addAt items).failed_count = items.length ∧
      (batch_create_memories addAt items).total = items.length ∧
      List.Perm
        ((batch_create_memories addAt items).created.map CreatedEntry.index ++
          (batch_create_memories addAt items).failed.map FailedCreate.index)
        (List.range items.length)) ∧
    ((batch_update_memories store updates).updated_count +
        (batch_update_memories store updates).failed_count = updates.length ∧
      (batch_update_memories store updates).total = updates.length ∧
      List.Perm
        ((batch_update_memories store updates).updated.map UpdatedEntry.index ++
          (batch_update_memories store updates).failed.map FailedUpdate.index)
        (List.range updates.length)) := by
  refine ⟨⟨?_, rfl, (bulk_delete_loop_eq store memory_ids).1,
      (bulk_delete_loop_eq store memory_ids).2⟩, ⟨?_, rfl, ?_⟩, ⟨?_, rfl, ?_⟩⟩
  · have h := bulk_delete_loop_eq store memory_ids
    show (bulk_delete_loop store memory_ids).1.length +
        (bulk_delete_loop store memory_ids).2.length = memory_ids.length
    rw [h.1, h.2, List.length_map]
    exact length_filter_add_not _ memory_ids
  · have h := batch_create_loop_perm addAt items 0
    have := h.length_eq
    simp only [List.length_append, List.length_map, List.length_range'] at this
    exact this
  · rw [List.range_eq_range']
    exact batch_create_loop_perm addAt items 0
  · have h := batch_update_loop_perm store updates 0
    have := h.length_eq
    simp only [List.length_append, List.length_map, List.length_range'] at this
    exact this
  · rw [List.range_eq_range']
    exact batch_update_loop_perm store updates 0

-- Lemmas describing one step and the whole fold of the quality loop.

theorem qstep_missing {V : Type} (s : QState) (m : MemRec V) :
    (qstep s m).missing_metadata =
      s.missing_metadata + (if missingMetadataB m then 1 else 0) := by
  unfold qstep
  cases missingMetadataB m <;> cases emptyContentB m <;> cases lowImportanceB m <;> simp

theorem qstep_empty {V : Type} (s : QState) (m : MemRec V) :
    (qstep s m).empty_content =
      s.empty_content + (if emptyContentB m then 1 else 0) := by
  unfold qstep
  cases missingMetadataB m <;> cases emptyContentB m <;> cases lowImportanceB m <;> simp

theorem qstep_low {V : Type} (s : QState) (m : MemRec V) :
    (qstep s m).low_importance =
      s.low_importance + (if lowImportanceB m then 1 else 0) := by
  unfold qstep
  cases missingMetadataB m <;> cases emptyContentB m <;> cases lowImportanceB m <;> simp

theorem qstep_seen {V : Type} (s : QState) (m : MemRec V) :
    (qstep s m).seen =
      if defectiveB m then insert (dedupKey m) s.seen else s.seen := by
  unfold qstep defectiveB
  cases missingMetadataB m <;> cases emptyContentB m <;> cases lowImportanceB m <;>
    simp [Finset.insert_idem]

theorem scan_missing {V : Type} (memories : List (MemRec V)) (s : QState) :
    (memories.foldl qstep s).missing_metadata =
      s.missing_metadata + memories.countP missingMetadataB := by
  induction memories generalizing s with
  | nil => simp
  | cons m rest ih =>
    rw [List.foldl_cons, ih, qstep_missing, List.countP_cons]
    cases missingMetadataB m <;> simp <;> omega

theorem scan_empty {V : Type} (memories : List (MemRec V)) (s : QState) :
    (memories.foldl qstep s).empty_content =
      s.empty_content + memories.countP emptyContentB := by
  induction memories generalizing s with
  | nil => simp
  | cons m rest ih =>
    rw [List.foldl_cons, ih, qstep_empty, List.countP_cons]
    cases emptyContentB m <;> simp <;> omega

theorem scan_low {V : Type} (memories : List (MemRec V)) (s : QState) :
    (memories.foldl qstep s).low_importance =
      s.low_importance + memories.countP lowImportanceB := by
  induction memories generalizing s with
  | nil => simp
  | cons m rest ih =>
    rw [List.foldl_cons, ih, qstep_low, List.countP_cons]
    cases lowImportanceB m <;> simp <;> omega

/-- The deduplicating set after the whole loop is exactly the set of dedup
keys of the defect-triggering records. -/
theorem scan_seen {V : Type} (memories : List (MemRec V)) (s : QState) :
    (memories.foldl qstep s).seen =
      s.seen ∪ ((memories.filter defectiveB).map dedupKey).toFinset := by
  induction memories generalizing s with
  | nil => simp
  | cons m rest ih =>
    rw [List.foldl_cons, ih, qstep_seen]
    cases h : defectiveB m
    · simp [List.filter_cons, h]
    · simp [List.filter_cons, h, Finset.union_insert]

-- Bounds for the exact round-half-even model of Python round.

theorem rhe_nonneg (q : ℚ) (h : 0 ≤ q) : 0 ≤ rhe q := by
  have hfl : (0 : ℤ) ≤ ⌊q⌋ := Int.floor_nonneg.mpr h
  unfold rhe
  by_cases htie : q - (⌊q⌋ : ℚ) = 1/2
  · rw [if_pos htie]
    split <;> omega
  · rw [if_neg htie, round_eq]
    refine Int.floor_nonneg.mpr ?_
    linarith

theorem rhe_le (q : ℚ) (b : ℤ) (h : q ≤ b) : rhe q ≤ b := by
  unfold rhe
  by_cases htie : q - (⌊q⌋ : ℚ) = 1/2
  · rw [if_pos htie]
    have hlt : (⌊q⌋ : ℚ) < b := by linarith
    have hltz : ⌊q⌋ < b := by exact_mod_cast hlt
    split <;> omega
  · rw [if_neg htie, round_eq]
    have hb : ⌊(b : ℚ) + 1/2⌋ = b := by
      rw [show ((b : ℚ) + 1/2) = 1/2 + (b : ℚ) by ring, Int.floor_add_int]
      norm_num
    calc ⌊q + 1/2⌋ ≤ ⌊(b : ℚ) + 1/2⌋ := Int.floor_le_floor (by linarith)
      _ = b := hb

theorem round4_nonneg (q : ℚ) (h : 0 ≤ q) : 0 ≤ round4 q := by
  unfold round4
  have h1 : (0 : ℤ) ≤ rhe (q * 10000) := rhe_nonneg _ (by positivity)
  exact div_nonneg (by exact_mod_cast h1) (by norm_num)

theorem round4_le_one (q : ℚ) (h : q ≤ 1) : round4 q ≤ 1 := by
  unfold round4
  have h1 : rhe (q * 10000) ≤ (10000 : ℤ) := rhe_le _ _ (by push_cast; linarith)
  rw [div_le_one (by norm_num)]
  exact_mod_cast h1

-- Projections of the quality report through the loop lemmas.

theorem analyze_total {V : Type} (getAll : List (MemRec V))
    (parse : String → Option Nat) (cutoff_date : Option Nat) :
    (analyze_memory_quality getAll parse cutoff_date).total_memories =
      (cutoffFilter parse cutoff_date getAll).length := by
  unfold analyze_memory_quality
  by_cases h : (cutoffFilter parse cutoff_date getAll).length = 0
  · simp [h]
  · simp [h]

theorem analyze_count {V : Type} (getAll : List (MemRec V))
    (parse : String → Option Nat) (cutoff_date : Option Nat)
    (h : (cutoffFilter parse cutoff_date getAll).length ≠ 0) :
    (analyze_memory_quality getAll parse cutoff_date).low_quality_count =
      (((cutoffFilter parse cutoff_date getAll).filter defectiveB).map dedupKey).toFinset.card := by
  unfold analyze_memory_quality
  rw [if_neg h]
  show (qualityScan (cutoffFilter parse cutoff_date getAll)).seen.card = _
  rw [qualityScan, scan_seen]
  simp

theorem analyze_criteria {V : Type} (getAll : List (MemRec V))
    (parse : String → Option Nat) (cutoff_date : Option Nat)
    (h : (cutoffFilter parse cutoff_date getAll).length ≠ 0) :
    (analyze_memory_quality getAll parse cutoff_date).quality_criteria =
      [("missing_metadata", (cutoffFilter parse cutoff_date getAll).countP missingMetadataB),
       ("empty_content", (cutoffFilter parse cutoff_date getAll).countP emptyContentB),
       ("low_importance", (cutoffFilter parse cutoff_date getAll).countP lowImportanceB)] := by
  unfold analyze_memory_quality
  rw [if_neg h]
  show [("missing_metadata", (qualityScan _).missing_metadata),
        ("empty_content", (qualityScan _).empty_content),
        ("low_importance", (qualityScan _).low_importance)] = _
  rw [qualityScan, scan_missing, scan_empty, scan_low]
  simp

theorem analyze_ratio {V : Type} (getAll : List (MemRec V))
    (parse : String → Option Nat) (cutoff_date : Option Nat)
    (h : (cutoffFilter parse cutoff_date getAll).length ≠ 0) :
    (analyze_memory_quality getAll parse cutoff_date).low_quality_ratio =
      round4 (((analyze_memory_quality getAll parse cutoff_date).low_quality_count : ℚ) /
        ((analyze_memory_quality getAll parse cutoff_date).total_memories : ℚ)) := by
  unfold analyze_memory_quality
  rw [if_neg h]

/-- The deduplicated count never exceeds the analyzed record count. -/
theorem analyze_count_le_total {V : Type} (getAll : List (MemRec V))
    (parse : String → Option Nat) (cutoff_date : Option Nat) :
    (analyze_memory_quality getAll parse cutoff_date).low_quality_count ≤
      (analyze_memory_quality getAll parse cutoff_date).total_memories := by
  by_cases h : (cutoffFilter parse cutoff_date getAll).length = 0
  · unfold analyze_memory_quality
    rw [if_pos h]
  · rw [analyze_count getAll parse cutoff_date h, analyze_total]
    calc (((cutoffFilter parse cutoff_date getAll).filter defectiveB).map dedupKey).toFinset.card
        ≤ (((cutoffFilter parse cutoff_date getAll).filter defectiveB).map dedupKey).length :=
          List.toFinset_card_le _
      _ = ((cutoffFilter parse cutoff_date getAll).filter defectiveB).length :=
          List.length_map _ _
      _ ≤ (cutoffFilter parse cutoff_date getAll).length := List.length_filter_le _ _

/-- C6: in every report of analyze_memory_quality, a record triggering one or
more defect criteria contributes exactly once to low_quality_count — the
count equals the number of defect-triggering analyzed records whenever their
dedup keys are pairwise distinct — while each triggered criterion counter
increments once per trigger (each equals the per-criterion record count);
consequently low_quality_count never exceeds total_memories and the ratio,
the count over the total rounded to 4 decimal places, lies in [0, 1]. -/
theorem c6_quality_report {V : Type} (getAll : List (MemRec V))
    (parse : String → Option Nat) (cutoff_date : Option Nat) :
    (cutoffFilter parse cutoff_date getAll ≠ [] →
      (analyze_memory_quality getAll parse cutoff_date).quality_criteria =
        [("missing_metadata", (cutoffFilter parse cutoff_date getAll).countP missingMetadataB),
         ("empty_content", (cutoffFilter parse cutoff_date getAll).countP emptyContentB),
         ("low_importance", (cutoffFilter parse cutoff_date getAll).countP lowImportanceB)]) ∧
    ((((cutoffFilter parse cutoff_date getAll).filter defectiveB).map dedupKey).Nodup →
      (analyze_memory_quality getAll parse cutoff_date).low_quality_count =
        ((cutoffFilter parse cutoff_date getAll).filter defectiveB).length) ∧
    (analyze_memory_quality getAll parse cutoff_date).low_quality_count ≤
      (analyze_memory_quality getAll parse cutoff_date).total_memories ∧
    0 ≤ (analyze_memory_quality getAll parse cutoff_date).low_quality_ratio ∧
    (analyze_memory_quality getAll parse cutoff_date).low_quality_ratio ≤ 1 ∧
    (cutoffFilter parse cutoff_date getAll ≠ [] →
      (analyze_memory_quality getAll parse cutoff_date).low_quality_ratio =
        round4 (((analyze_memory_quality getAll parse cutoff_date).low_quality_count : ℚ) /
          ((analyze_memory_quality getAll parse cutoff_date).total_memories : ℚ))) := by
  refine ⟨?_, ?_, analyze_count_le_total getAll parse cutoff_date, ?_, ?_, ?_⟩
  · intro hne
    exact analyze_criteria getAll parse cutoff_date
      (by simpa [List.length_eq_zero] using hne)
  · intro hnd
    by_cases h : (cutoffFilter parse cutoff_date getAll).length = 0
    · have hnil : cutoffFilter parse cutoff_date getAll = [] :=
        List.length_eq_zero.mp h
      unfold analyze_memory_quality
      rw [if_pos h]
      simp [hnil]
    · rw [analyze_count getAll parse cutoff_date h,
        List.toFinset_card_of_nodup hnd, List.length_map]
  · by_cases h : (cutoffFilter parse cutoff_date getAll).length = 0
    · unfold analyze_memory_quality
      rw [if_pos h]
    · rw [analyze_ratio getAll parse cutoff_date h]
      refine round4_nonneg _ (div_nonneg ?_ ?_) <;> positivity
  · by_cases h : (cutoffFilter parse cutoff_date getAll).length = 0
    · unfold analyze_memory_quality
      rw [if_pos h]
      norm_num
    · rw [analyze_ratio getAll parse cutoff_date h]
      refine round4_le_one _ ?_
      have htot : (analyze_memory_quality getAll parse cutoff_date).total_memories ≠ 0 := by
        rw [analyze_total]
        exact h
      rw [div_le_one (by exact_mod_cast Nat.pos_of_ne_zero htot)]
      exact_mod_cast analyze_count_le_total getAll parse cutoff_date
  · intro hne
    exact analyze_ratio getAll parse cutoff_date
      (by simpa [List.length_eq_zero] using hne)

/-- Record used by the C6 witness: metadata absent and content of length 2,
triggering missing_metadata and empty_content but not low_importance. -/
def qualityRec : MemRec ℤ := { memory_field := some "ab" }

/-- C6 witness: on one record with empty metadata and content of length 2,
both triggered counters read 1, the record counts once, and the ratio is
rounded within bounds. -/
theorem c6_quality_report_witness :
    (analyze_memory_quality [qualityRec] (fun _ => none) none).quality_criteria =
      [("missing_metadata", 1), ("empty_content", 1), ("low_importance", 0)] ∧
    (analyze_memory_quality [qualityRec] (fun _ => none) none).low_quality_count = 1 ∧
    0 ≤ (analyze_memory_quality [qualityRec] (fun _ => none) none).low_quality_ratio ∧
    (analyze_memory_quality [qualityRec] (fun _ => none) none).low_quality_ratio ≤ 1 := by
  have h := c6_quality_report [qualityRec] (fun _ => none) none
  have hne : cutoffFilter (fun _ => none) none [qualityRec] ≠ [] := by
    simp [cutoffFilter]
  refine ⟨?_, ?_, h.2.2.2.1, h.2.2.2.2.1⟩
  · rw [h.1 hne]
    decide
  · rw [h.2.1 (by decide)]
    decide

/-- C10: analyze_memory_quality deduplicates low_quality_count by the id
field falling back to memory_id — two defect-triggering records whose dedup
keys coincide (both lacking an id, or sharing one) contribute a single unit
to low_quality_count while total_memories counts both. -/
theorem c10_dedup_shared_key {V : Type} (parse : String → Option Nat)
    (r1 r2 : MemRec V) (h1 : defectiveB r1 = true) (h2 : defectiveB r2 = true)
    (hk : dedupKey r1 = dedupKey r2) :
    (analyze_memory_quality [r1, r2] parse none).low_quality_count = 1 ∧
    (analyze_memory_quality [r1, r2] parse none).total_memories = 2 := by
  constructor
  · rw [analyze_count [r1, r2] parse none (by simp [cutoffFilter])]
    simp [cutoffFilter, List.filter_cons, h1, h2, hk]
  · rw [analyze_total]
    simp [cutoffFilter]

/-- C10 witness: two distinct records, both without any id key and both
defect-triggering, count once while the total counts both. -/
theorem c10_dedup_shared_key_witness :
    (analyze_memory_quality [({} : MemRec ℤ), { type_field := some "x" }]
      (fun _ => none) none).low_quality_count = 1 ∧
    (analyze_memory_quality [({} : MemRec ℤ), { type_field := some "x" }]
      (fun _ => none) none).total_memories = 2 :=
  c10_dedup_shared_key (fun _ => none) {} { type_field := some "x" } rfl rfl rfl

theorem foldl_add_eq_sum {α : Type} (f : α → ℚ) (l : List α) (init : ℚ) :
    l.foldl (fun acc m => acc + f m) init = init + (l.map f).sum := by
  induction l generalizing init with
  | nil => simp
  | cons m rest ih =>
    rw [List.foldl_cons, ih, List.map_cons, List.sum_cons]
    ring

/-- The recomputed total always equals the filtered record count. -/
theorem calc_total {V : Type} (now : Nat) (parse : String → Option Nat)
    (memories : List (MemRec V)) :
    (calculate_stats_from_memories now parse memories).total_memories =
      memories.length := by
  unfold calculate_stats_from_memories
  by_cases h : memories.length = 0
  · rw [if_pos h, h]
    rfl
  · rw [if_neg h]

/-- The recomputed average over a non-empty list is the fold of the per-record
contributions divided by the count. -/
theorem calc_avg {V : Type} (now : Nat) (parse : String → Option Nat)
    (memories : List (MemRec V)) (h : memories ≠ []) :
    (calculate_stats_from_memories now parse memories).avg_importance =
      (memories.map py_importance).sum / (memories.length : ℚ) := by
  have h0 : memories.length ≠ 0 := by
    simpa [List.length_eq_zero] using h
  unfold calculate_stats_from_memories
  rw [if_neg h0]
  show (if memories.length > 0 then
      (memories.foldl (fun acc m => acc + py_importance m) 0) / (memories.length : ℚ)
    else 0) = _
  rw [if_pos (Nat.pos_of_ne_zero h0), foldl_add_eq_sum]
  ring

/-- C4 counterexample store: one record whose importance key is present with
the value 0. -/
def statsStore : Store ℤ :=
  { get := fun _ => none
    payloadData := fun _ => none
    update := fun _ _ _ => {}
    delete := fun _ => true
    getAll := [{ importance_field := some 0 }]
    parse := fun _ => none
    nativeStats := zeroStats }

/-- C4 counterexample: the single scanned record carries importance 0, so the
arithmetic mean of the record importance values the claim specifies is 0,
yet the snapshot reports 0.5 — the Python `or` default also replaces a
present zero importance, not only a missing one. -/
theorem c4_zero_importance_counterexample :
    statsStore.getAll = [{ importance_field := some 0 }] ∧
    ({ importance_field := some 0 } : MemRec ℤ).importance_field = some 0 ∧
    (get_statistics statsStore 0 (some 0)).avg_importance = 1/2 ∧
    ([(0 : ℚ)].sum / ([(0 : ℚ)].length : ℚ)) = 0 ∧
    (1/2 : ℚ) ≠ 0 := by
  refine ⟨rfl, rfl, ?_, by norm_num, by norm_num⟩
  have hg : get_statistics statsStore 0 (some 0) =
      calculate_stats_from_memories 0 statsStore.parse
        [{ importance_field := some 0 }] := rfl
  rw [hg, calc_avg 0 statsStore.parse _ (List.cons_ne_nil _ _)]
  norm_num [py_importance]

/-- C4 as amended: in the snapshot recomputed by get_statistics with a
cutoff, avg_importance is the arithmetic mean of the per-record
contributions where a record whose importance is absent, null or equal to 0
contributes 0.5 and any other record contributes its importance value; the
empty filtered set yields 0. -/
theorem c4_avg_importance_semantics {V : Type} (store : Store V) (now : Nat)
    (c : Nat) :
    (store.getAll.filter
        (fun m => c ≤ parse_datetime store.parse m.created_at_field) ≠ [] →
      (get_statistics store now (some c)).avg_importance =
        ((store.getAll.filter
            (fun m => c ≤ parse_datetime store.parse m.created_at_field)).map
          py_importance).sum /
        ((store.getAll.filter
            (fun m => c ≤ parse_datetime store.parse m.created_at_field)).length : ℚ)) ∧
    (store.getAll.filter
        (fun m => c ≤ parse_datetime store.parse m.created_at_field) = [] →
      (get_statistics store now (some c)).avg_importance = 0) ∧
    (∀ m : MemRec V,
      ((m.importance_field = none ∨ m.importance_field = some 0) →
        py_importance m = 1/2) ∧
      ∀ x, m.importance_field = some x → x ≠ 0 → py_importance m = x) := by
  refine ⟨?_, ?_, ?_⟩
  · intro hne
    show (calculate_stats_from_memories now store.parse _).avg_importance = _
    exact calc_avg now store.parse _ hne
  · intro hnil
    show (calculate_stats_from_memories now store.parse _).avg_importance = 0
    rw [hnil]
    rfl
  · intro m
    constructor
    · rintro (h | h) <;> simp [py_importance, h]
    · intro x hx hx0
      simp [py_importance, hx, hx0]

/-- C4 witness: the amended mean evaluated on the concrete one-record store,
where the zero-importance record contributes 0.5. -/
theorem c4_avg_importance_semantics_witness :
    (get_statistics statsStore 0 (some 0)).avg_importance =
      ((statsStore.getAll.filter
          (fun m => 0 ≤ parse_datetime statsStore.parse m.created_at_field)).map
        py_importance).sum /
      ((statsStore.getAll.filter
          (fun m => 0 ≤ parse_datetime statsStore.parse m.created_at_field)).length : ℚ) := by
  refine (c4_avg_importance_semantics statsStore 0 0).1 ?_
  rw [show statsStore.getAll.filter
      (fun m => 0 ≤ parse_datetime statsStore.parse m.created_at_field) =
      [{ importance_field := some 0 }] from rfl]
  exact List.cons_ne_nil _ _

/-- C5 counterexample store: one record whose created_at key is absent. -/
def c5Store : Store ℤ :=
  { get := fun _ => none
    payloadData := fun _ => none
    update := fun _ _ _ => {}
    delete := fun _ => true
    getAll := [{ type_field := some "note" }]
    parse := fun _ => none
    nativeStats := zeroStats }

/-- C5 counterexample: under the cutoff 1 the sole record, whose created_at
is absent, vanishes from the whole recomputed snapshot — total_memories is
0 and its type is not counted in by_type — whereas the claim says such a
record is still counted in total_memories and by_type (here both 1). -/
theorem c5_excluded_everywhere_counterexample :
    c5Store.getAll = [{ type_field := some "note" }] ∧
    ({ type_field := some "note" } : MemRec ℤ).created_at_field = none ∧
    (get_statistics c5Store 0 (some 1)).total_memories = 0 ∧
    (get_statistics c5Store 0 (some 1)).by_type "note" = 0 ∧
    (get_statistics c5Store 0 (some 1)).avg_importance = 0 ∧
    c5Store.getAll.length = 1 ∧ (0 : Nat) ≠ 1 := by
  exact ⟨rfl, rfl, rfl, rfl, rfl, rfl, by decide⟩

/-- C5 as amended: with any cutoff strictly after the sentinel minimum
timestamp, a scanned record whose created_at is absent, empty, or not
parseable is excluded from the entire recomputed snapshot: the snapshot is
computed solely from the cutoff-filtered list, such a record is not in that
list (its parse collapses to the sentinel, which fails the cutoff test), and
total_memories counts exactly that list. -/
theorem c5_cutoff_excludes_unparseable {V : Type} (store : Store V) (now : Nat)
    (c : Nat) (hc : 0 < c) (m : MemRec V) (hm : m ∈ store.getAll)
    (hbad : m.created_at_field = none ∨ m.created_at_field = some "" ∨
      (∃ s, m.created_at_field = some s ∧ store.parse s = none)) :
    get_statistics store now (some c) =
      calculate_stats_from_memories now store.parse
        (store.getAll.filter
          (fun m => c ≤ parse_datetime store.parse m.created_at_field)) ∧
    m ∉ store.getAll.filter
      (fun m => c ≤ parse_datetime store.parse m.created_at_field) ∧
    (get_statistics store now (some c)).total_memories =
      (store.getAll.filter
        (fun m => c ≤ parse_datetime store.parse m.created_at_field)).length := by
  have hparse : parse_datetime store.parse m.created_at_field = 0 := by
    rcases hbad with h | h | ⟨s, hs, hp⟩
    · simp [parse_datetime, h]
    · simp [parse_datetime, h]
    · by_cases hs0 : s = "" <;> simp [parse_datetime, hs, hs0, hp]
  refine ⟨rfl, ?_, ?_⟩
  · intro hmem
    rw [List.mem_filter] at hmem
    have := hmem.2
    rw [hparse] at this
    simp at this
    omega
  · show (calculate_stats_from_memories now store.parse _).total_memories = _
    exact calc_total now store.parse _

/-- C5 witness: the amended exclusion evaluated on the concrete store whose
sole record lacks created_at, under cutoff 1. -/
theorem c5_cutoff_excludes_unparseable_witness :
    ({ type_field := some "note" } : MemRec ℤ) ∉
      c5Store.getAll.filter
        (fun m => 1 ≤ parse_datetime c5Store.parse m.created_at_field) ∧
    (get_statistics c5Store 0 (some 1)).total_memories =
      (c5Store.getAll.filter
        (fun m => 1 ≤ parse_datetime c5Store.parse m.created_at_field)).length := by
  have h := c5_cutoff_excludes_unparseable c5Store 0 1 (by decide)
    { type_field := some "note" } (by simp [c5Store]) (Or.inl rfl)
  exact ⟨h.2.1, h.2.2⟩
